import Mathlib

/-!
Shallow embedding of the analysis-and-narration pipeline of `app.py`
(CrossFit Form Analyzer).  Remote services are modelled as environments
supplying their answers; every user action becomes a function from the
current session state and environment to the new session state together
with the list of observable effects (warnings, errors, remote calls,
temp-file unlink) it emits, in order.
-/

namespace CFVideo

/-- Processing states of the remote video handle
(`processed_video.state.name` in `app.py`). -/
inductive FileState
  | pending
  | processing
  | ready
  | failed
deriving DecidableEq

/-- The Streamlit session state fields used by the pipeline
(`st.session_state.*`, initialised at app.py lines 122-132; the `audio`
field is only ever created at line 300, modelled as `Option`). -/
structure SessionState where
  analysis_result : Option String
  audio_script : Option String
  audio : Option (List Nat)
  audio_generated : Bool
  show_audio_options : Bool
deriving DecidableEq

/-- Session state right after initialisation (app.py lines 122-132). -/
def initialSession : SessionState :=
  { analysis_result := none
    audio_script := none
    audio := none
    audio_generated := false
    show_audio_options := false }

/-- Observable effects of one user action, in emission order. -/
inductive Effect
  | warning (msg : String)
  | error (msg : String)
  | info (msg : String)
  | uploadCall
  | pollCall
  | promptCall (handleState : FileState)
  | scriptCall
  | ttsCall (text : String)
  | unlinkTemp
deriving DecidableEq

/-- Warning shown when processing exceeds 60 seconds (app.py line 174). -/
def longProcessingWarning : String :=
  "Video processing is taking longer than expected. Please be patient."

/-- Warning shown for an empty query (app.py line 162). -/
def emptyQueryWarning : String :=
  "Please enter a question about your form to analyze the video."

/-- Effects of the `except` branch of the analyze handler
(app.py lines 223-225). -/
def analysisErrorEffects (e : String) : List Effect :=
  [Effect.error ("Analysis error: " ++ e),
   Effect.info "Try uploading a shorter video or check your internet connection."]

/-- The polling loop of app.py lines 171-176: while the handle state is
`PROCESSING`, emit the soft warning when the elapsed time read at that
iteration exceeds 60 seconds, then re-fetch the state.  `polls` is the
trace of (elapsed seconds at the check, state returned by `get_file`);
an exhausted trace while still `PROCESSING` models divergence (`none`). -/
def pollLoop : FileState → List (Nat × FileState) → List Effect × Option FileState
  | s, [] =>
      if s = FileState.processing then ([], none) else ([], some s)
  | s, (elapsed, s') :: rest =>
      if s = FileState.processing then
        let warnEffs :=
          if 60 < elapsed then [Effect.warning longProcessingWarning] else []
        let next := pollLoop s' rest
        (warnEffs ++ Effect.pollCall :: next.1, next.2)
      else
        ([], some s)

/-- Environment for one run of the analyze handler: the remote answers. -/
structure AnalyzeEnv where
  uploadResult : Except String FileState
  polls : List (Nat × FileState)
  promptResult : Except String String

/-- The analyze-button handler (app.py lines 160-227).  Empty query:
warning only, no `try`/`finally`, so no unlink (lines 161-162).
Otherwise: upload, poll until the state leaves `PROCESSING`, issue the
prompt with whatever state the loop ended on, store the result and reset
`audio_generated`, `show_audio_options`, `audio_script` (lines 218-221;
the `audio` bytes field is not touched); any exception is caught (lines
223-225) and the `finally` unlinks the temp file (lines 226-227).  A
diverging poll loop never reaches the `finally`. -/
def analyze (query : String) (env : AnalyzeEnv) (st : SessionState) :
    SessionState × List Effect :=
  if query = "" then
    (st, [Effect.warning emptyQueryWarning])
  else
    match env.uploadResult with
    | Except.error e =>
        (st, Effect.uploadCall :: analysisErrorEffects e ++ [Effect.unlinkTemp])
    | Except.ok s0 =>
        match pollLoop s0 env.polls with
        | (pollEffs, none) => (st, Effect.uploadCall :: pollEffs)
        | (pollEffs, some s) =>
            match env.promptResult with
            | Except.error e =>
                (st, Effect.uploadCall :: pollEffs ++
                      Effect.promptCall s :: analysisErrorEffects e ++
                      [Effect.unlinkTemp])
            | Except.ok text =>
                ({ st with
                    analysis_result := some text
                    audio_generated := false
                    show_audio_options := false
                    audio_script := none },
                 Effect.uploadCall :: pollEffs ++
                      [Effect.promptCall s, Effect.unlinkTemp])

/-- Environment for one run of the Generate Audio Analysis handler:
the script-model answer, the audio chunks streamed before any failure,
and whether the stream raised after those chunks. -/
structure NarrationEnv where
  scriptResult : Except String String
  chunks : List (List Nat)
  streamError : Option String

/-- The Generate Audio Analysis handler (app.py lines 269-313).  Missing
key: error only (lines 312-313).  Otherwise generate the script and store
it (lines 285-286), then stream and accumulate chunks into `audio_bytes`
starting from the empty byte string (lines 297-299); on success store the
bytes and set the flag (lines 300-301).  Any exception is caught at line
310, after the point reached so far: a stream failure keeps the stored
script but never assigns `audio` or `audio_generated`. -/
def generateAudio (apiKey : Option String) (env : NarrationEnv)
    (st : SessionState) : SessionState × List Effect :=
  match apiKey with
  | none => (st, [Effect.error "ElevenLabs API key needed for audio."])
  | some _ =>
      match env.scriptResult with
      | Except.error e =>
          (st, [Effect.scriptCall, Effect.error ("Audio generation error: " ++ e)])
      | Except.ok script =>
          let st1 := { st with audio_script := some script }
          match env.streamError with
          | some e =>
              (st1, [Effect.scriptCall, Effect.ttsCall script,
                     Effect.error ("Audio generation error: " ++ e)])
          | none =>
              ({ st1 with
                  audio := some (env.chunks.foldl (fun acc c => acc ++ c) [])
                  audio_generated := true },
               [Effect.scriptCall, Effect.ttsCall script])

/-- Extensions accepted by the uploader (app.py line 142). -/
def allowedVideoExtensions : List String := ["mp4", "mov", "avi"]

/-- An uploaded video: its bytes and the declared extension. -/
structure UploadedVideo where
  content : List Nat
  ext : String

/-- Creation of the temporary file (app.py lines 147-149):
`NamedTemporaryFile(delete=False, suffix=".mp4")` receives the uploaded
bytes; the name is a unique stem plus the fixed suffix `.mp4`, and the
declared extension is never consulted. -/
def storeTempVideo (uniqueStem : String) (v : UploadedVideo) :
    String × List Nat :=
  (uniqueStem ++ ".mp4", v.content)

/-! ## Lemmas about the polling loop -/

/-- When the loop returns a state, that state is never `PROCESSING`. -/
theorem pollLoop_result_ne_processing :
    ∀ (polls : List (Nat × FileState)) (s r : FileState),
      (pollLoop s polls).2 = some r → r ≠ FileState.processing := by
  intro polls
  induction polls with
  | nil =>
      intro s r h
      by_cases hs : s = FileState.processing
      · simp [pollLoop, hs] at h
      · simp [pollLoop, hs] at h
        simpa [← h] using hs
  | cons p rest ih =>
      intro s r h
      by_cases hs : s = FileState.processing
      · obtain ⟨elapsed, s'⟩ := p
        simp only [pollLoop, hs, if_pos] at h
        exact ih s' r h
      · simp [pollLoop, hs] at h
        simpa [← h] using hs

/-- The returned state does not depend on the elapsed-time readings:
zeroing all of them (so that no warning ever fires) yields the same
outcome. -/
theorem pollLoop_time_independent :
    ∀ (polls : List (Nat × FileState)) (s : FileState),
      (pollLoop s polls).2
        = (pollLoop s (polls.map (fun p => (0, p.2)))).2 := by
  intro polls
  induction polls with
  | nil => intro s; rfl
  | cons p rest ih =>
      intro s
      obtain ⟨elapsed, s'⟩ := p
      by_cases hs : s = FileState.processing
      · simp only [List.map, pollLoop, hs, if_pos]
        exact ih s'
      · simp [pollLoop, hs]

/-- If the trace ever shows a non-`PROCESSING` state, the loop terminates. -/
theorem pollLoop_terminates :
    ∀ (polls : List (Nat × FileState)) (s : FileState),
      (s ≠ FileState.processing ∨ ∃ p ∈ polls, p.2 ≠ FileState.processing) →
      ((pollLoop s polls).2).isSome := by
  intro polls
  induction polls with
  | nil =>
      intro s h
      rcases h with h | ⟨p, hp, _⟩
      · simp [pollLoop, h]
      · simp at hp
  | cons q rest ih =>
      intro s h
      by_cases hs : s = FileState.processing
      · obtain ⟨elapsed, s'⟩ := q
        simp only [pollLoop, hs, if_pos]
        apply ih
        rcases h with h | ⟨p, hp, hne⟩
        · exact absurd hs h
        · rcases List.mem_cons.mp hp with rfl | hmem
          · exact Or.inl hne
          · exact Or.inr ⟨p, hmem, hne⟩
      · simp [pollLoop, hs]

/-- The loop itself never issues the prompt. -/
theorem pollLoop_no_promptCall :
    ∀ (polls : List (Nat × FileState)) (s t : FileState),
      Effect.promptCall t ∉ (pollLoop s polls).1 := by
  intro polls
  induction polls with
  | nil =>
      intro s t
      by_cases hs : s = FileState.processing <;> simp [pollLoop, hs]
  | cons p rest ih =>
      intro s t
      obtain ⟨elapsed, s'⟩ := p
      by_cases hs : s = FileState.processing
      · simp only [pollLoop, hs, if_pos]
        intro hmem
        rcases List.mem_append.mp hmem with hw | hc
        · by_cases ht : 60 < elapsed <;> simp [ht] at hw
        · rcases List.mem_cons.mp hc with h | h
          · exact absurd h (by simp)
          · exact ih s' t h
      · simp [pollLoop, hs]

/-! ## Concrete environments used as test inputs -/

/-- A run in which the remote handle ends up `FAILED` after one poll
while the prompt request itself would succeed. -/
def failedPollEnv : AnalyzeEnv :=
  { uploadResult := Except.ok FileState.processing
    polls := [(0, FileState.failed)]
    promptResult := Except.ok "analysis text" }

/-- A fully successful analysis run (handle already `READY`). -/
def okAnalyzeEnv : AnalyzeEnv :=
  { uploadResult := Except.ok FileState.ready
    polls := []
    promptResult := Except.ok "new analysis" }

/-- A session that already holds a full set of narration artifacts. -/
def staleNarrationSession : SessionState :=
  { analysis_result := some "old analysis"
    audio_script := some "old script"
    audio := some [1, 2, 3]
    audio_generated := true
    show_audio_options := true }

/-! ## Claim theorems: analyze handler -/

/-- C4: while the handle is `PROCESSING`, an iteration whose elapsed
time exceeds 60 seconds surfaces the soft warning; the check is advisory
only — the outcome of the iteration is the same continuation for every
elapsed time, zeroing every elapsed reading never changes the final
outcome (no timeout ever terminates the call), and the loop keeps going
until the state leaves `PROCESSING`. -/
theorem polling_warning_is_advisory
    (s : FileState) (t : Nat) (s' : FileState) (rest : List (Nat × FileState))
    (hs : s = FileState.processing) :
    (60 < t →
      Effect.warning longProcessingWarning ∈ (pollLoop s ((t, s') :: rest)).1)
    ∧ (pollLoop s ((t, s') :: rest)).2 = (pollLoop s' rest).2
    ∧ (∀ polls, (pollLoop s polls).2
          = (pollLoop s (polls.map (fun p => (0, p.2)))).2)
    ∧ (∀ polls r, (pollLoop s polls).2 = some r → r ≠ FileState.processing) := by
  subst hs
  refine ⟨?_, ?_, ?_, ?_⟩
  · intro ht
    simp [pollLoop, ht]
  · simp [pollLoop]
  · intro polls
    exact pollLoop_time_independent polls _
  · intro polls r h
    exact pollLoop_result_ne_processing polls _ r h

theorem polling_warning_is_advisory_witness :
    Effect.warning longProcessingWarning ∈
      (pollLoop FileState.processing [(61, FileState.ready)]).1
    ∧ (pollLoop FileState.processing [(61, FileState.ready)]).2
        = (pollLoop FileState.ready []).2 := by
  have h := polling_warning_is_advisory FileState.processing 61 FileState.ready
    [] rfl
  exact ⟨h.1 (by decide), h.2.1⟩

/-- C2 counterexample: when the remote handle reaches `FAILED`, the code
still issues the prompt — with handle state `FAILED`, not `READY` —
because the loop only checks for `PROCESSING` and the prompt follows
unconditionally. -/
theorem prompt_issued_on_failed_state :
    Effect.promptCall FileState.failed ∈
      (analyze "check my squat" failedPollEnv initialSession).2
    ∧ Effect.promptCall FileState.ready ∉
      (analyze "check my squat" failedPollEnv initialSession).2 := by
  decide

/-- C2 amended: the prompt is issued only once the handle state has left
`PROCESSING`; the code never checks for `READY`, so the state at the
prompt may be `READY` or `FAILED`, but never `PROCESSING`. -/
theorem prompt_only_after_leaving_processing
    (query : String) (env : AnalyzeEnv) (st : SessionState) (s : FileState)
    (h : Effect.promptCall s ∈ (analyze query env st).2) :
    s ≠ FileState.processing := by
  unfold analyze at h
  split at h
  · simp at h
  · split at h
    · simp [analysisErrorEffects] at h
    · rename_i s0 _
      split at h
      · rename_i pollEffs heq
        simp only [List.mem_cons] at h
        rcases h with h | h
        · exact absurd h (by simp)
        · have := pollLoop_no_promptCall env.polls s0 s
          rw [heq] at this
          exact absurd h this
      · rename_i pollEffs s' heq
        have hne : s' ≠ FileState.processing := by
          apply pollLoop_result_ne_processing env.polls s0
          rw [heq]
        have hnp : Effect.promptCall s ∉ pollEffs := by
          have hh := pollLoop_no_promptCall env.polls s0 s
          rw [heq] at hh
          exact hh
        split at h
        · simp [analysisErrorEffects, hnp] at h
          subst h
          exact hne
        · simp [hnp] at h
          subst h
          exact hne

theorem prompt_only_after_leaving_processing_witness :
    Effect.promptCall FileState.failed ∈
      (analyze "check my squat" failedPollEnv initialSession).2
    ∧ FileState.failed ≠ FileState.processing :=
  ⟨by decide,
   prompt_only_after_leaving_processing "check my squat" failedPollEnv
     initialSession FileState.failed (by decide)⟩

/-- C7: invoking analyze with an empty query leaves the session state
exactly unchanged, surfaces only the validation warning, and issues no
remote call of any kind (no upload, no poll, no prompt) and no unlink. -/
theorem empty_query_is_pure_validation (env : AnalyzeEnv) (st : SessionState) :
    analyze "" env st = (st, [Effect.warning emptyQueryWarning])
    ∧ Effect.uploadCall ∉ (analyze "" env st).2
    ∧ Effect.pollCall ∉ (analyze "" env st).2
    ∧ (∀ s, Effect.promptCall s ∉ (analyze "" env st).2) := by
  refine ⟨rfl, ?_, ?_, ?_⟩ <;> simp [analyze]

/-- C1 counterexample: a successful new analysis stores the new
`AnalysisResult`, yet the previously stored `NarrationAudio` bytes
survive untouched in session state — the handler never resets
`st.session_state.audio`. -/
theorem stale_audio_survives_new_analysis :
    (analyze "check form" okAnalyzeEnv staleNarrationSession).1.analysis_result
        = some "new analysis"
    ∧ (analyze "check form" okAnalyzeEnv staleNarrationSession).1.audio
        = some [1, 2, 3]
    ∧ (analyze "check form" okAnalyzeEnv staleNarrationSession).1.audio
        ≠ initialSession.audio := by
  refine ⟨rfl, rfl, ?_⟩
  decide

/-- C1 amended: a successful analyze stores the new result and resets
the `NarrationScript` and the two narration flags to their initial
values, but leaves the stored `NarrationAudio` bytes exactly as they
were (they are merely gated by `audio_generated = false`, not cleared). -/
theorem analysis_success_resets_script_and_flags
    (query : String) (env : AnalyzeEnv) (st : SessionState)
    (s0 s : FileState) (text : String)
    (hq : query ≠ "")
    (hu : env.uploadResult = Except.ok s0)
    (hp : (pollLoop s0 env.polls).2 = some s)
    (hr : env.promptResult = Except.ok text) :
    (analyze query env st).1.analysis_result = some text
    ∧ (analyze query env st).1.audio_script = none
    ∧ (analyze query env st).1.audio_generated = false
    ∧ (analyze query env st).1.show_audio_options = false
    ∧ (analyze query env st).1.audio = st.audio := by
  rcases hpl : pollLoop s0 env.polls with ⟨effs, r⟩
  rw [hpl] at hp
  simp only at hp
  subst hp
  simp [analyze, hq, hu, hpl, hr]

theorem analysis_success_resets_script_and_flags_witness :
    ("check form" ≠ "")
    ∧ (analyze "check form" okAnalyzeEnv staleNarrationSession).1.audio_script
        = none
    ∧ (analyze "check form" okAnalyzeEnv staleNarrationSession).1.audio
        = staleNarrationSession.audio := by
  have h := analysis_success_resets_script_and_flags "check form" okAnalyzeEnv
    staleNarrationSession FileState.ready FileState.ready "new analysis"
    (by decide) rfl rfl rfl
  exact ⟨by decide, h.2.1, h.2.2.2.2⟩

/-- C3 counterexample: when the action fails validation (empty query),
the handler returns after the warning without entering the
`try`/`finally`, so the temporary file is never unlinked — cleanup is
not guaranteed on that exit path. -/
theorem no_unlink_on_validation_failure :
    Effect.unlinkTemp ∉ (analyze "" okAnalyzeEnv initialSession).2 := by
  decide

/-- C3 amended: the temporary file is unlinked on every exit path of
the analysis `try` block — success, upload failure, or prompt failure —
but not when validation rejects an empty query (and, inherently, not if
the polling loop never terminates), where the file stays on disk. -/
theorem temp_file_released_on_analysis_paths
    (query : String) (env : AnalyzeEnv) (st : SessionState)
    (hq : query ≠ "")
    (hterm : ∀ s0, env.uploadResult = Except.ok s0 →
        ((pollLoop s0 env.polls).2).isSome) :
    Effect.unlinkTemp ∈ (analyze query env st).2 := by
  unfold analyze
  rw [if_neg hq]
  cases hu : env.uploadResult with
  | error e => simp [analysisErrorEffects]
  | ok s0 =>
      have hsome := hterm s0 hu
      rcases hpl : pollLoop s0 env.polls with ⟨effs, r⟩
      rw [hpl] at hsome
      cases r with
      | none => simp at hsome
      | some s =>
          cases hr : env.promptResult with
          | error e => simp [analysisErrorEffects, hpl]
          | ok text => simp [hpl]

theorem temp_file_released_on_analysis_paths_witness :
    ("check form" ≠ "")
    ∧ Effect.unlinkTemp ∈
        (analyze "check form" okAnalyzeEnv initialSession).2 :=
  ⟨by decide,
   temp_file_released_on_analysis_paths "check form" okAnalyzeEnv
     initialSession (by decide)
     (by
       intro s0 h
       simp only [okAnalyzeEnv] at h
       injection h with h
       subst h
       rfl)⟩

/-! ## Claim theorems: narration handler -/

/-- Folding append over the chunk list starting from the empty byte
string yields the flat concatenation in received order. -/
theorem foldl_append_eq_join (l : List (List Nat)) :
    l.foldl (fun acc c => acc ++ c) [] = l.flatten := by
  suffices h : ∀ acc, l.foldl (fun acc c => acc ++ c) acc = acc ++ l.flatten by
    simpa using h []
  induction l with
  | nil => intro acc; simp
  | cons c rest ih => intro acc; simp [ih]

/-- A successful narration run: script generated, three chunks streamed. -/
def okNarrationEnv : NarrationEnv :=
  { scriptResult := Except.ok "the script"
    chunks := [[1, 2], [3], [4, 5]]
    streamError := none }

/-- A narration run whose audio stream raises after one chunk. -/
def failingStreamEnv : NarrationEnv :=
  { scriptResult := Except.ok "the script"
    chunks := [[9, 9]]
    streamError := some "connection reset" }

/-- C5: when the audio stream raises, synthesis is aborted with an error
surfaced; the stored audio bytes and the `audio_generated` flag keep the
values they had before the attempt, and the partially accumulated chunks
are discarded. -/
theorem stream_failure_discards_partial_audio
    (k : String) (env : NarrationEnv) (st : SessionState) (s e : String)
    (hs : env.scriptResult = Except.ok s)
    (he : env.streamError = some e) :
    (generateAudio (some k) env st).1.audio = st.audio
    ∧ (generateAudio (some k) env st).1.audio_generated = st.audio_generated
    ∧ Effect.error ("Audio generation error: " ++ e)
        ∈ (generateAudio (some k) env st).2 := by
  simp [generateAudio, hs, he]

theorem stream_failure_discards_partial_audio_witness :
    (generateAudio (some "key") failingStreamEnv staleNarrationSession).1.audio
        = staleNarrationSession.audio
    ∧ (generateAudio (some "key") failingStreamEnv
          staleNarrationSession).1.audio_generated
        = staleNarrationSession.audio_generated
    ∧ Effect.error ("Audio generation error: " ++ "connection reset")
        ∈ (generateAudio (some "key") failingStreamEnv
            staleNarrationSession).2 :=
  stream_failure_discards_partial_audio "key" failingStreamEnv
    staleNarrationSession "the script" "connection reset" rfl rfl

/-- C6: with no ElevenLabs API key, the Generate Audio action only
reports the configuration error; the session state is unchanged and no
script-generation or speech-synthesis call is ever issued. -/
theorem missing_key_blocks_narration (env : NarrationEnv) (st : SessionState) :
    generateAudio none env st
        = (st, [Effect.error "ElevenLabs API key needed for audio."])
    ∧ Effect.scriptCall ∉ (generateAudio none env st).2
    ∧ (∀ s, Effect.ttsCall s ∉ (generateAudio none env st).2)
    ∧ (generateAudio none env st).1.audio_script = st.audio_script := by
  refine ⟨rfl, ?_, ?_, rfl⟩ <;> simp [generateAudio]

/-- C8: audio can only become generated through a script produced in the
same action: if the flag was not set before and is set after, the script
request succeeded, its result is the stored `NarrationScript`, the
speech call was made on exactly that script, and the audio is the
concatenation of the streamed chunks. -/
theorem audio_only_through_script
    (k : String) (env : NarrationEnv) (st : SessionState)
    (h0 : st.audio_generated = false)
    (h1 : (generateAudio (some k) env st).1.audio_generated = true) :
    ∃ s, env.scriptResult = Except.ok s
      ∧ (generateAudio (some k) env st).1.audio_script = some s
      ∧ Effect.scriptCall ∈ (generateAudio (some k) env st).2
      ∧ Effect.ttsCall s ∈ (generateAudio (some k) env st).2
      ∧ (generateAudio (some k) env st).1.audio = some env.chunks.flatten := by
  cases hs : env.scriptResult with
  | error e => simp [generateAudio, hs, h0] at h1
  | ok s =>
      cases he : env.streamError with
      | some e => simp [generateAudio, hs, he, h0] at h1
      | none =>
          refine ⟨s, rfl, ?_, ?_, ?_, ?_⟩ <;>
            simp [generateAudio, hs, he, foldl_append_eq_join]

theorem audio_only_through_script_witness :
    initialSession.audio_generated = false
    ∧ ∃ s, okNarrationEnv.scriptResult = Except.ok s
        ∧ (generateAudio (some "key") okNarrationEnv
              initialSession).1.audio_script = some s
        ∧ Effect.scriptCall ∈
            (generateAudio (some "key") okNarrationEnv initialSession).2
        ∧ Effect.ttsCall s ∈
            (generateAudio (some "key") okNarrationEnv initialSession).2
        ∧ (generateAudio (some "key") okNarrationEnv initialSession).1.audio
            = some okNarrationEnv.chunks.flatten :=
  ⟨rfl, audio_only_through_script "key" okNarrationEnv initialSession rfl rfl⟩

/-- C9: on a successful synthesis the stored audio equals the
concatenation of the streamed chunks in exactly the order received,
starting from the empty byte string. -/
theorem audio_is_ordered_concatenation
    (k : String) (env : NarrationEnv) (st : SessionState) (s : String)
    (hs : env.scriptResult = Except.ok s)
    (he : env.streamError = none) :
    (generateAudio (some k) env st).1.audio = some env.chunks.flatten
    ∧ (generateAudio (some k) env st).1.audio_generated = true := by
  simp [generateAudio, hs, he, foldl_append_eq_join]

theorem audio_is_ordered_concatenation_witness :
    (generateAudio (some "key") okNarrationEnv initialSession).1.audio
        = some [1, 2, 3, 4, 5] := by
  have h := audio_is_ordered_concatenation "key" okNarrationEnv initialSession
    "the script" rfl rfl
  simpa [okNarrationEnv] using h.1

/-! ## Claim theorems: temporary file naming -/

/-- C10: whatever the declared extension of the upload (in particular
for every accepted extension), the temporary file name is the unique
stem plus the fixed suffix `.mp4`, the name is independent of the
declared extension, and the file receives exactly the uploaded bytes. -/
theorem temp_file_suffix_fixed
    (uniqueStem : String) (v w : UploadedVideo)
    (_hv : v.ext ∈ allowedVideoExtensions) :
    (storeTempVideo uniqueStem v).1 = uniqueStem ++ ".mp4"
    ∧ (storeTempVideo uniqueStem v).1 = (storeTempVideo uniqueStem w).1
    ∧ (storeTempVideo uniqueStem v).2 = v.content :=
  ⟨rfl, rfl, rfl⟩

theorem temp_file_suffix_fixed_witness :
    (⟨[7], "mov"⟩ : UploadedVideo).ext ∈ allowedVideoExtensions
    ∧ (storeTempVideo "tmpabc" ⟨[7], "mov"⟩).1 = "tmpabc" ++ ".mp4" :=
  ⟨by decide,
   (temp_file_suffix_fixed "tmpabc" ⟨[7], "mov"⟩ ⟨[7], "avi"⟩ (by decide)).1⟩

end CFVideo
